import Mathlib

/-!
Verification development for the PlatePlanner hybrid recommendation pipeline.

Shallow embedding of the four pipeline stages:
* `filter_unsafe_recipes` — `src/services/ontology_service.py` (Stage 2)
* `rank_by_nutrition`     — `src/services/nutrient_service.py` (Stage 3)
* `get_candidates`        — `src/services/retrieval_service.py` (Stage 1)
* `LLMClient.generate`    — `src/services/rag_service.py` (Stage 4)
* `run_hybrid_pipeline`   — `src/pipelines/hybrid_recommendation.py`

Python dictionaries carrying a recipe are modelled by the `Candidate`
structure; a key that may be absent becomes an `Option` field.  External
backends (the Neo4j graph, the FAISS index, the SQLite metadata store,
the LLM provider) are passed in as explicit function parameters, so that
"the backend raised" is an `Except.error` value and "the backend is down
at startup" is a `none` handle.  Numeric values are rationals.
-/

namespace PlatePlanner

/-- A candidate recipe dictionary as it flows through the pipeline.
Optional fields model dictionary keys that may be absent. -/
structure Candidate where
  recipe_id : Option String
  title : String
  ingredients : List String
  directions : String
  semantic_score : Option ℚ
  calories_per_serving : Option ℚ
  fitness_score : Option ℚ
  calorie_distance : Option ℚ
  explanation : Option String
deriving DecidableEq

/-! ## Stage 2: OntologyService.filter_unsafe_recipes

`execute_query` stands for `self.neo4j.execute_query`: given the candidate
ids and the lower-cased stripped restriction terms it either raises
(`Except.error`) or returns rows whose `safe_id` column may be null
(`Option String`).  Ids are modelled as the strings the Python code
compares after `str(...)` conversion. -/

def filter_unsafe_recipes
    (execute_query : List String → List String → Except Unit (List (Option String)))
    (candidates : List Candidate) (restrictions : List String) : List Candidate :=
  if candidates.isEmpty then []
  else if restrictions.isEmpty then candidates
  else
    let candidate_ids := candidates.filterMap (fun c => c.recipe_id)
    if candidate_ids.isEmpty then candidates
    else
      let restricted_terms := restrictions.map (fun r => r.toLower.trim)
      match execute_query candidate_ids restricted_terms with
      | Except.error _ => []
      | Except.ok results =>
        let safe_ids := results.filterMap (fun row => row)
        candidates.filter (fun c =>
          match c.recipe_id with
          | some rid => safe_ids.contains rid
          | none => false)

/-! ## Stage 3: NutrientService.rank_by_nutrition

`user_goals.get("target_calories")` is an `Option ℚ`; Python truthiness
(`if not target_calories`) treats both `None` and `0` as "no goal".
`recipe.get("calories_per_serving") or 600.0` is `pyOr`. -/

/-- Python `x or default` on an optional numeric field: `None` and `0`
both fall through to the default. -/
def pyOr (o : Option ℚ) (default : ℚ) : ℚ :=
  match o with
  | none => default
  | some c => if c = 0 then default else c

/-- Attach `fitness_score` and `calorie_distance` to one recipe, as the
loop body of `rank_by_nutrition` does. -/
def scoreRecipe (target_calories : ℚ) (recipe : Candidate) : Candidate :=
  let recipe_cals := pyOr recipe.calories_per_serving 600
  let calorie_distance := |recipe_cals - target_calories|
  let norm_cal_penalty := min (calorie_distance / 500) 1
  let sem_score := recipe.semantic_score.getD 0
  let fitness_score := sem_score - norm_cal_penalty * (1 / 2)
  { recipe with
      fitness_score := some fitness_score
      calorie_distance := some calorie_distance }

/-- The sort key `x["fitness_score"]` (always present on scored recipes). -/
def fitnessKey (c : Candidate) : ℚ := c.fitness_score.getD 0

/-- Insert into a descending list, keeping earlier (inserted-later-found)
elements of equal key in front: the stable insertion step. -/
def insertDesc (key : Candidate → ℚ) (x : Candidate) : List Candidate → List Candidate
  | [] => [x]
  | y :: ys => if key y ≤ key x then x :: y :: ys else y :: insertDesc key x ys

/-- Stable descending insertion sort; agrees with Python
`list.sort(key=..., reverse=True)`, which is a stable sort. -/
def sortDesc (key : Candidate → ℚ) : List Candidate → List Candidate
  | [] => []
  | x :: xs => insertDesc key x (sortDesc key xs)

def rank_by_nutrition (safe_recipes : List Candidate)
    (target_calories : Option ℚ) : List Candidate :=
  if safe_recipes.isEmpty then []
  else
    match target_calories with
    | none => safe_recipes
    | some t =>
      if t = 0 then safe_recipes
      else sortDesc fitnessKey (safe_recipes.map (scoreRecipe t))

/-! ## Stage 1: RetrievalService.get_candidates

The sentence-transformer model and the FAISS index are process-wide
handles that may have failed to load (`Option Unit`).  `search` stands
for `self.index.search`: a pair of parallel lists, distances and indices
(an index is `-1` when FAISS finds fewer than `k` neighbours).  `store`
stands for the SQLite metadata lookup `id -> row`; `dbOk` is false when
the SQLite query raises. -/

/-- A row of the `recipes` table after text parsing: title, the `ner`
ingredient list and the joined directions text. -/
structure MetaRow where
  title : String
  ner : List String
  directions : String
deriving DecidableEq

/-- First-occurrence de-duplication, Python `list(dict.fromkeys(xs))`. -/
def dedupFirstAux (seen : List String) : List String → List String
  | [] => []
  | x :: xs =>
    if x ∈ seen then dedupFirstAux seen xs
    else x :: dedupFirstAux (x :: seen) xs

def dedupFirst (xs : List String) : List String := dedupFirstAux [] xs

/-- The candidate-building loop of `get_candidates`: walk the filtered
FAISS indices with their enumeration position, skip ids without a
metadata row, and read the similarity from `distances` at the position. -/
def buildCandidates (store : Int → Option MetaRow) (distances : List ℚ) :
    Nat → List Int → List Candidate
  | _, [] => []
  | i, idx :: rest =>
    match store idx with
    | none => buildCandidates store distances (i + 1) rest
    | some row =>
      { recipe_id := some (toString idx)
        title := row.title
        ingredients := dedupFirst row.ner
        directions := row.directions
        semantic_score := some (distances.getD i 0)
        calories_per_serving := none
        fitness_score := none
        calorie_distance := none
        explanation := none } :: buildCandidates store distances (i + 1) rest

def get_candidates (model index : Option Unit)
    (search : String → Nat → List ℚ × List Int)
    (store : Int → Option MetaRow) (dbOk : Bool)
    (query : String) (k : Nat) : List Candidate :=
  if index.isNone || model.isNone then []
  else
    let res := search query k
    let found_indices := res.2.filter (fun i => 0 ≤ i)
    if found_indices.isEmpty then []
    else if !dbOk then []
    else buildCandidates store res.1 0 found_indices

/-! ## Stage 4: LLMClient.generate

`initialized` is the outcome of `_init_client` (false when no provider
client could be constructed); `providerCall` is the provider-specific
generation call, raising with a message string or returning text. -/

/-- The fixed text of `LLMClient._fallback_response`. -/
def fallback_response : String :=
  "I\x27d love to help with that, but no LLM backend is currently configured. " ++
  "Set one of these environment variables to enable AI features:\n" ++
  "  • OPENAI_API_KEY (for GPT-4)\n" ++
  "  • GOOGLE_API_KEY (for Gemini)\n" ++
  "  • Or run Ollama locally: ollama serve && ollama pull llama3"

namespace LLMClient

def generate (initialized : Bool) (providerCall : Except String String) : String :=
  if !initialized then fallback_response
  else
    match providerCall with
    | Except.ok text => text
    | Except.error e => "AI response unavailable: " ++ e.take 200

end LLMClient

/-! ## Orchestrator: run_hybrid_pipeline

The four stages are passed in as functions; `retrieve` is the value of
`retrieval_service.get_candidates(query, k=100)`.  Mutating
`best_recipe["explanation"]` before slicing `ranked_recipes[:5]` means
the attached explanation is visible in the first returned element. -/

inductive PipelineResult where
  | error (message : String)
  | success (top_recommendations : List Candidate) (primary_explanation : String)
deriving DecidableEq

def run_hybrid_pipeline (retrieve : List Candidate)
    (filterStage rankStage : List Candidate → List Candidate)
    (explain : Candidate → String) : PipelineResult :=
  if retrieve.isEmpty then PipelineResult.error "No recipes found for the query."
  else
    let safe_recipes := filterStage retrieve
    if safe_recipes.isEmpty then
      PipelineResult.error "No recipes passed the strict dietary constraints."
    else
      match rankStage safe_recipes with
      | [] => PipelineResult.error "Failed to rank recipes by nutrition."
      | best_recipe :: rest =>
        let expl := explain best_recipe
        PipelineResult.success
          (({ best_recipe with explanation := some expl } :: rest).take 5) expl

/-! ## Concrete values used by witnesses -/

def demo_candidate : Candidate :=
  { recipe_id := some "1"
    title := "Lentil Soup"
    ingredients := ["lentils", "carrot"]
    directions := "Simmer until soft."
    semantic_score := some (9 / 10)
    calories_per_serving := some 450
    fitness_score := none
    calorie_distance := none
    explanation := none }

def demo_candidate2 : Candidate :=
  { recipe_id := some "2"
    title := "Peanut Stew"
    ingredients := ["peanut", "tomato"]
    directions := "Stew gently."
    semantic_score := some (8 / 10)
    calories_per_serving := some 900
    fitness_score := none
    calorie_distance := none
    explanation := none }

/-- A candidate dictionary with no `recipe_id` key. -/
def demo_candidate_noid : Candidate :=
  { recipe_id := none
    title := "Mystery Dish"
    ingredients := ["salt"]
    directions := "Mix."
    semantic_score := some (1 / 2)
    calories_per_serving := none
    fitness_score := none
    calorie_distance := none
    explanation := none }

/-- A candidate whose `calories_per_serving` key holds the falsy value 0. -/
def demo_candidate_zero_cal : Candidate :=
  { recipe_id := some "3"
    title := "Sparkling Water"
    ingredients := ["water"]
    directions := "Chill."
    semantic_score := some (3 / 10)
    calories_per_serving := some 0
    fitness_score := none
    calorie_distance := none
    explanation := none }

/-- A concrete FAISS search outcome: two hits and one `-1` miss. -/
def demo_search : String → Nat → List ℚ × List Int :=
  fun _ _ => ([9 / 10, 8 / 10, 0], [0, 7, -1])

/-- A concrete metadata store holding a row for id 0 only. -/
def demo_store : Int → Option MetaRow :=
  fun i => if i = 0 then some ⟨"Lentil Soup", ["lentils", "lentils", "carrot"], "Simmer."⟩ else none

/-! ## Helper lemmas about the stable descending insertion sort -/

theorem insertDesc_perm (key : Candidate → ℚ) (x : Candidate) (l : List Candidate) :
    List.Perm (insertDesc key x l) (x :: l) := by
  induction l with
  | nil => simp [insertDesc]
  | cons y ys ih =>
    simp only [insertDesc]
    split
    · exact List.Perm.refl _
    · exact (ih.cons y).trans (List.Perm.swap x y ys)

theorem sortDesc_perm (key : Candidate → ℚ) (l : List Candidate) :
    List.Perm (sortDesc key l) l := by
  induction l with
  | nil => simp [sortDesc]
  | cons x xs ih =>
    exact (insertDesc_perm key x (sortDesc key xs)).trans (ih.cons x)

theorem insertDesc_pairwise (key : Candidate → ℚ) (x : Candidate)
    (l : List Candidate) (h : l.Pairwise (fun a b => key b ≤ key a)) :
    (insertDesc key x l).Pairwise (fun a b => key b ≤ key a) := by
  induction l with
  | nil => simp [insertDesc]
  | cons y ys ih =>
    rcases List.pairwise_cons.1 h with ⟨hy, hys⟩
    simp only [insertDesc]
    split
    · rename_i hxy
      refine List.pairwise_cons.2 ⟨?_, h⟩
      intro z hz
      rcases List.mem_cons.1 hz with rfl | hz
      · exact hxy
      · exact (hy z hz).trans hxy
    · rename_i hxy
      refine List.pairwise_cons.2 ⟨?_, ih hys⟩
      intro z hz
      have hz2 : z ∈ x :: ys := (insertDesc_perm key x ys).subset hz
      rcases List.mem_cons.1 hz2 with rfl | hz2
      · exact le_of_not_le hxy
      · exact hy z hz2

theorem sortDesc_pairwise (key : Candidate → ℚ) (l : List Candidate) :
    (sortDesc key l).Pairwise (fun a b => key b ≤ key a) := by
  induction l with
  | nil => simp [sortDesc]
  | cons x xs ih => exact insertDesc_pairwise key x _ ih

theorem insertDesc_filter_eq (key : Candidate → ℚ) (x : Candidate)
    (l : List Candidate) (q : ℚ) (hx : key x = q) :
    (insertDesc key x l).filter (fun c => decide (key c = q)) =
      x :: l.filter (fun c => decide (key c = q)) := by
  induction l with
  | nil => simp [insertDesc, List.filter, hx]
  | cons y ys ih =>
    simp only [insertDesc]
    split
    · simp [List.filter, hx]
    · rename_i hxy
      have hyq : ¬ key y = q := by
        intro hq
        exact hxy (le_of_eq (hq.trans hx.symm))
      simp [List.filter, hyq, ih]

theorem insertDesc_filter_ne (key : Candidate → ℚ) (x : Candidate)
    (l : List Candidate) (q : ℚ) (hx : ¬ key x = q) :
    (insertDesc key x l).filter (fun c => decide (key c = q)) =
      l.filter (fun c => decide (key c = q)) := by
  induction l with
  | nil => simp [insertDesc, List.filter, hx]
  | cons y ys ih =>
    simp only [insertDesc]
    split
    · simp [List.filter, hx]
    · by_cases hy : key y = q
      · simp [List.filter, hy, ih]
      · simp [List.filter, hy, ih]

theorem sortDesc_filter (key : Candidate → ℚ) (l : List Candidate) (q : ℚ) :
    (sortDesc key l).filter (fun c => decide (key c = q)) =
      l.filter (fun c => decide (key c = q)) := by
  induction l with
  | nil => simp [sortDesc]
  | cons x xs ih =>
    by_cases hx : key x = q
    · rw [sortDesc, insertDesc_filter_eq key x _ q hx, ih]
      simp [List.filter, hx]
    · rw [sortDesc, insertDesc_filter_ne key x _ q hx, ih]
      simp [List.filter, hx]

/-! ## Helper lemma about the retrieval loop -/

theorem buildCandidates_ids (store : Int → Option MetaRow) (distances : List ℚ)
    (i : Nat) (found : List Int) :
    (buildCandidates store distances i found).map (fun c => c.recipe_id) =
      (found.filter (fun idx => (store idx).isSome)).map
        (fun idx => some (toString idx)) := by
  induction found generalizing i with
  | nil => simp [buildCandidates]
  | cons idx rest ih =>
    simp only [buildCandidates]
    cases h : store idx with
    | none => simp [List.filter, h, ih]
    | some row => simp [List.filter, h, ih]

theorem buildCandidates_mem (store : Int → Option MetaRow) (distances : List ℚ)
    (i : Nat) (found : List Int) (c : Candidate)
    (hc : c ∈ buildCandidates store distances i found) :
    ∃ idx row, store idx = some row ∧ c.recipe_id = some (toString idx) := by
  induction found generalizing i with
  | nil => simp [buildCandidates] at hc
  | cons idx rest ih =>
    cases h : store idx with
    | none =>
      simp only [buildCandidates, h] at hc
      exact ih _ hc
    | some row =>
      simp only [buildCandidates, h] at hc
      rcases List.mem_cons.1 hc with rfl | hc
      · exact ⟨idx, row, h, rfl⟩
      · exact ih _ hc

/-! ## Claim theorems -/

/-- C1: whenever the graph query is actually issued (non-empty restrictions
and at least one candidate id) and it raises, `filter_unsafe_recipes`
fails closed and returns the empty list, whatever the candidates are. -/
theorem C1_filter_fails_closed
    (execute_query : List String → List String → Except Unit (List (Option String)))
    (candidates : List Candidate) (restrictions : List String)
    (hR : restrictions ≠ [])
    (hids : candidates.filterMap (fun c => c.recipe_id) ≠ [])
    (herr : execute_query (candidates.filterMap (fun c => c.recipe_id))
        (restrictions.map (fun r => r.toLower.trim)) = Except.error ()) :
    filter_unsafe_recipes execute_query candidates restrictions = [] := by
  have hC : candidates ≠ [] := by
    intro h
    subst h
    simp at hids
  simp [filter_unsafe_recipes, hC, hR, hids, herr]

/-- C1 witness: a graph backend that raises on every query makes the
filter return the empty list on a concrete candidate list. -/
theorem C1_filter_fails_closed_witness :
    (["peanut"] : List String) ≠ [] ∧
    ([demo_candidate].filterMap (fun c => c.recipe_id)) ≠ [] ∧
    filter_unsafe_recipes (fun _ _ => Except.error ()) [demo_candidate] ["peanut"] = [] :=
  ⟨by decide, by decide,
    C1_filter_fails_closed (fun _ _ => Except.error ()) [demo_candidate] ["peanut"]
      (by decide) (by decide) rfl⟩

/-- C2: the filter output is always a sublist of the input candidate list
(subset by element, surviving candidates in input order), and is exactly
the input when the restriction list is empty. -/
theorem C2_filter_sublist
    (execute_query : List String → List String → Except Unit (List (Option String)))
    (candidates : List Candidate) (restrictions : List String) :
    (filter_unsafe_recipes execute_query candidates restrictions).Sublist candidates ∧
    (restrictions = [] →
      filter_unsafe_recipes execute_query candidates restrictions = candidates) := by
  constructor
  · simp only [filter_unsafe_recipes]
    split
    · exact List.nil_sublist _
    · split
      · exact List.Sublist.refl _
      · split
        · exact List.Sublist.refl _
        · split
          · exact List.nil_sublist _
          · exact List.filter_sublist _
  · intro hR
    subst hR
    by_cases hc : candidates = []
    · subst hc
      simp [filter_unsafe_recipes]
    · simp [filter_unsafe_recipes, hc]

/-- C2 witness: concrete run with an empty restriction list. -/
theorem C2_filter_sublist_witness :
    (filter_unsafe_recipes (fun _ _ => Except.ok []) [demo_candidate, demo_candidate2]
      []).Sublist [demo_candidate, demo_candidate2] ∧
    filter_unsafe_recipes (fun _ _ => Except.ok []) [demo_candidate, demo_candidate2] [] =
      [demo_candidate, demo_candidate2] :=
  ⟨(C2_filter_sublist (fun _ _ => Except.ok []) [demo_candidate, demo_candidate2] []).1,
   (C2_filter_sublist (fun _ _ => Except.ok []) [demo_candidate, demo_candidate2] []).2 rfl⟩

/-- C9: with restrictions present but no candidate carrying a
`recipe_id` key, the filter returns all candidates unchanged without
consulting the graph (the result does not depend on `execute_query`);
and whenever the graph is consulted, every surviving candidate carries a
`recipe_id` key, so an id-less candidate is excluded even if safe. -/
theorem C9_filter_recipe_id_behavior
    (execute_query : List String → List String → Except Unit (List (Option String)))
    (candidates : List Candidate) (restrictions : List String) :
    (candidates.filterMap (fun c => c.recipe_id) = [] →
      filter_unsafe_recipes execute_query candidates restrictions = candidates) ∧
    (restrictions ≠ [] → candidates.filterMap (fun c => c.recipe_id) ≠ [] →
      ∀ c ∈ filter_unsafe_recipes execute_query candidates restrictions,
        c.recipe_id.isSome) := by
  constructor
  · intro hids
    by_cases hc : candidates = []
    · subst hc
      simp [filter_unsafe_recipes]
    · by_cases hr : restrictions = []
      · subst hr
        simp [filter_unsafe_recipes, hc]
      · simp [filter_unsafe_recipes, hc, hr, hids]
  · intro hR hids c hc
    have hC : candidates ≠ [] := by
      intro h
      subst h
      simp at hids
    simp only [filter_unsafe_recipes] at hc
    rw [if_neg (by simpa using hC), if_neg (by simpa using hR),
      if_neg (by simpa using hids)] at hc
    rcases hq : execute_query (candidates.filterMap (fun c => c.recipe_id))
        (restrictions.map (fun r => r.toLower.trim)) with e | results
    · rw [hq] at hc
      simp at hc
    · rw [hq] at hc
      simp only [List.mem_filter] at hc
      rcases hc with ⟨_, hpred⟩
      cases hcid : c.recipe_id with
      | none => rw [hcid] at hpred; simp at hpred
      | some rid => simp

/-- C9 witness: id-less candidates pass through untouched when
restricted; with the graph consulted, the id-less candidate is dropped
even though the graph marked everything safe. -/
theorem C9_filter_recipe_id_behavior_witness :
    filter_unsafe_recipes (fun _ _ => Except.error ()) [demo_candidate_noid] ["peanut"] =
      [demo_candidate_noid] ∧
    (∀ c ∈ filter_unsafe_recipes (fun _ _ => Except.ok [some "1", some "x"])
        [demo_candidate, demo_candidate_noid] ["peanut"], c.recipe_id.isSome) :=
  ⟨(C9_filter_recipe_id_behavior (fun _ _ => Except.error ()) [demo_candidate_noid]
      ["peanut"]).1 (by decide),
   (C9_filter_recipe_id_behavior (fun _ _ => Except.ok [some "1", some "x"])
      [demo_candidate, demo_candidate_noid] ["peanut"]).2 (by decide) (by decide)⟩

/-- C4: when the goals mapping has no `target_calories` key, ranking
returns the input list unchanged, so nothing is reordered and no
`fitness_score` or `calorie_distance` is attached. -/
theorem C4_rank_passthrough_no_goal (safe_recipes : List Candidate) :
    rank_by_nutrition safe_recipes none = safe_recipes := by
  cases safe_recipes <;> simp [rank_by_nutrition]

/-- C10: a falsy `target_calories` (`0`, like a missing key) makes
ranking return the input unchanged and unscored; and a falsy
`calories_per_serving` of `0` is scored exactly like an absent one, with
the default of 600 calories. -/
theorem C10_falsy_values
    (safe_recipes : List Candidate) (t : ℚ) (recipe : Candidate)
    (hcal : recipe.calories_per_serving = some 0) :
    rank_by_nutrition safe_recipes (some 0) = safe_recipes ∧
    (scoreRecipe t recipe).fitness_score =
      (scoreRecipe t { recipe with calories_per_serving := none }).fitness_score ∧
    (scoreRecipe t recipe).calorie_distance =
      (scoreRecipe t { recipe with calories_per_serving := none }).calorie_distance ∧
    (scoreRecipe t recipe).calorie_distance = some |600 - t| ∧
    (scoreRecipe t recipe).fitness_score =
      some (recipe.semantic_score.getD 0 - min (|600 - t| / 500) 1 * (1 / 2)) := by
  refine ⟨?_, ?_, ?_, ?_, ?_⟩
  · cases safe_recipes <;> simp [rank_by_nutrition]
  all_goals simp [scoreRecipe, pyOr, hcal]

/-- C10 witness: concrete falsy-value run. -/
theorem C10_falsy_values_witness :
    demo_candidate_zero_cal.calories_per_serving = some 0 ∧
    rank_by_nutrition [demo_candidate] (some 0) = [demo_candidate] ∧
    (scoreRecipe 500 demo_candidate_zero_cal).calorie_distance = some |600 - 500| :=
  ⟨by decide,
   (C10_falsy_values [demo_candidate] 500 demo_candidate_zero_cal (by decide)).1,
   (C10_falsy_values [demo_candidate] 500 demo_candidate_zero_cal (by decide)).2.2.2.1⟩

/-- C3 counterexample: the goals mapping `{target_calories: 0}` contains
the key `target_calories`, yet ranking returns the non-empty input
unchanged, with no `fitness_score` or `calorie_distance` attached. -/
theorem C3_zero_target_counterexample :
    rank_by_nutrition [demo_candidate] (some 0) = [demo_candidate] ∧
    demo_candidate.fitness_score = none ∧
    demo_candidate.calorie_distance = none ∧
    ([demo_candidate] : List Candidate) ≠ [] := by
  refine ⟨?_, rfl, rfl, by decide⟩
  simp [rank_by_nutrition]

/-- C3 (amended): for a non-empty candidate list and a goals mapping
containing a nonzero (truthy) `target_calories`, ranking returns a
permutation of the scored input in which every candidate carries the
claimed `calorie_distance` and `fitness_score` formulas, sorted
descending by fitness with ties kept in input order (stable sort,
witnessed by the filter-stability equation). -/
theorem C3_rank_spec (safe_recipes : List Candidate) (t : ℚ)
    (hC : safe_recipes ≠ []) (ht : t ≠ 0) :
    List.Perm (rank_by_nutrition safe_recipes (some t))
      (safe_recipes.map (scoreRecipe t)) ∧
    (∀ c ∈ rank_by_nutrition safe_recipes (some t), ∃ r ∈ safe_recipes,
      c = scoreRecipe t r ∧
      c.calorie_distance = some |pyOr r.calories_per_serving 600 - t| ∧
      c.fitness_score = some (r.semantic_score.getD 0 -
        min (|pyOr r.calories_per_serving 600 - t| / 500) 1 * (1 / 2))) ∧
    (rank_by_nutrition safe_recipes (some t)).Pairwise
      (fun a b => fitnessKey b ≤ fitnessKey a) ∧
    (∀ q : ℚ, (rank_by_nutrition safe_recipes (some t)).filter
        (fun c => decide (fitnessKey c = q)) =
      (safe_recipes.map (scoreRecipe t)).filter (fun c => decide (fitnessKey c = q))) := by
  have hr : rank_by_nutrition safe_recipes (some t) =
      sortDesc fitnessKey (safe_recipes.map (scoreRecipe t)) := by
    simp [rank_by_nutrition, hC, ht]
  refine ⟨hr ▸ sortDesc_perm _ _, ?_, hr ▸ sortDesc_pairwise _ _,
    fun q => hr ▸ sortDesc_filter _ _ q⟩
  intro c hc
  rw [hr] at hc
  have hmem : c ∈ safe_recipes.map (scoreRecipe t) :=
    (sortDesc_perm fitnessKey _).subset hc
  rcases List.mem_map.1 hmem with ⟨r, hrC, rfl⟩
  exact ⟨r, hrC, rfl, by simp [scoreRecipe], by simp [scoreRecipe]⟩

/-- C3 witness: concrete nonzero-target ranking is a permutation of the
scored input. -/
theorem C3_rank_spec_witness :
    ([demo_candidate, demo_candidate2] : List Candidate) ≠ [] ∧ (500 : ℚ) ≠ 0 ∧
    List.Perm (rank_by_nutrition [demo_candidate, demo_candidate2] (some 500))
      ([demo_candidate, demo_candidate2].map (scoreRecipe 500)) :=
  ⟨by decide, by decide,
   (C3_rank_spec [demo_candidate, demo_candidate2] 500 (by decide) (by decide)).1⟩

/-- C5: the pipeline short-circuits in stage order with exactly three
possible error results; when an earlier stage is empty the result is the
corresponding error message and does not depend on any later stage
function (so later stages are never invoked). -/
theorem C5_pipeline_short_circuit (retrieve : List Candidate)
    (filterStage rankStage : List Candidate → List Candidate)
    (explain : Candidate → String) :
    (retrieve = [] → ∀ (f2 r2 : List Candidate → List Candidate)
        (e2 : Candidate → String),
      run_hybrid_pipeline retrieve f2 r2 e2 =
        PipelineResult.error "No recipes found for the query.") ∧
    (retrieve ≠ [] → filterStage retrieve = [] →
      ∀ (r2 : List Candidate → List Candidate) (e2 : Candidate → String),
      run_hybrid_pipeline retrieve filterStage r2 e2 =
        PipelineResult.error "No recipes passed the strict dietary constraints.") ∧
    (retrieve ≠ [] → filterStage retrieve ≠ [] →
      rankStage (filterStage retrieve) = [] → ∀ e2 : Candidate → String,
      run_hybrid_pipeline retrieve filterStage rankStage e2 =
        PipelineResult.error "Failed to rank recipes by nutrition.") ∧
    (∀ m : String, run_hybrid_pipeline retrieve filterStage rankStage explain =
        PipelineResult.error m →
      m = "No recipes found for the query." ∨
      m = "No recipes passed the strict dietary constraints." ∨
      m = "Failed to rank recipes by nutrition.") := by
  refine ⟨?_, ?_, ?_, ?_⟩
  · intro h f2 r2 e2
    subst h
    simp [run_hybrid_pipeline]
  · intro h1 h2 r2 e2
    simp [run_hybrid_pipeline, h1, h2]
  · intro h1 h2 h3 e2
    simp [run_hybrid_pipeline, h1, h2, h3]
  · intro m hm
    simp only [run_hybrid_pipeline] at hm
    split at hm
    · injection hm with h
      exact Or.inl h.symm
    · split at hm
      · injection hm with h
        exact Or.inr (Or.inl h.symm)
      · split at hm
        · injection hm with h
          exact Or.inr (Or.inr h.symm)
        · exact absurd hm (by simp)

/-- C5 witness: empty retrieval yields the first error for arbitrary
later stages, and that message is among the three allowed ones. -/
theorem C5_pipeline_short_circuit_witness :
    run_hybrid_pipeline [] (fun _ => [demo_candidate]) (fun _ => [demo_candidate])
        (fun _ => "hi") = PipelineResult.error "No recipes found for the query." ∧
    run_hybrid_pipeline [demo_candidate] (fun _ => []) (fun l => l) (fun _ => "hi") =
      PipelineResult.error "No recipes passed the strict dietary constraints." ∧
    run_hybrid_pipeline [demo_candidate] (fun l => l) (fun _ => []) (fun _ => "hi") =
      PipelineResult.error "Failed to rank recipes by nutrition." :=
  ⟨(C5_pipeline_short_circuit [] (fun l => l) (fun l => l) (fun _ => "hi")).1 rfl
      (fun _ => [demo_candidate]) (fun _ => [demo_candidate]) (fun _ => "hi"),
   (C5_pipeline_short_circuit [demo_candidate] (fun _ => []) (fun l => l)
      (fun _ => "hi")).2.1 (by decide) rfl (fun l => l) (fun _ => "hi"),
   (C5_pipeline_short_circuit [demo_candidate] (fun l => l) (fun _ => [])
      (fun _ => "hi")).2.2.1 (by decide) (by decide) rfl (fun _ => "hi")⟩

/-- C6: every success result exposes the ranking's head with the
explanation attached, followed by the next ranked candidates unchanged,
truncated to at most five entries, and `primary_explanation` is the
explanation generated for the top-ranked candidate. -/
theorem C6_pipeline_success_shape (retrieve : List Candidate)
    (filterStage rankStage : List Candidate → List Candidate)
    (explain : Candidate → String) (tops : List Candidate) (expl : String)
    (h : run_hybrid_pipeline retrieve filterStage rankStage explain =
      PipelineResult.success tops expl) :
    ∃ best rest, rankStage (filterStage retrieve) = best :: rest ∧
      expl = explain best ∧
      tops = ({ best with explanation := some (explain best) } :: rest).take 5 ∧
      tops.length ≤ 5 ∧
      tops.head? = some { best with explanation := some (explain best) } ∧
      tops.tail = rest.take 4 := by
  simp only [run_hybrid_pipeline] at h
  split at h
  · exact absurd h (by simp)
  · split at h
    · exact absurd h (by simp)
    · split at h
      · exact absurd h (by simp)
      · rename_i best rest heq
        rcases h with ⟨rfl, rfl⟩
        refine ⟨best, rest, heq, rfl, rfl, ?_, ?_, ?_⟩
        · simp [List.length_take]
        · simp [List.take_succ_cons]
        · simp [List.take_succ_cons]

/-- C6 witness: a concrete successful run has the claimed shape. -/
theorem C6_pipeline_success_shape_witness :
    run_hybrid_pipeline [demo_candidate] (fun l => l) (fun l => l)
        (fun _ => "Chosen for you.") =
      PipelineResult.success [{ demo_candidate with explanation := some "Chosen for you." }]
        "Chosen for you." ∧
    ∃ best rest,
      (fun (l : List Candidate) => l) ((fun (l : List Candidate) => l) [demo_candidate]) =
        best :: rest ∧
      "Chosen for you." = (fun (_ : Candidate) => "Chosen for you.") best ∧
      [{ demo_candidate with explanation := some "Chosen for you." }] =
        ({ best with explanation := some "Chosen for you." } :: rest).take 5 ∧
      ([{ demo_candidate with explanation := some "Chosen for you." }] :
        List Candidate).length ≤ 5 ∧
      ([{ demo_candidate with explanation := some "Chosen for you." }] :
        List Candidate).head? = some { best with explanation := some "Chosen for you." } ∧
      ([{ demo_candidate with explanation := some "Chosen for you." }] :
        List Candidate).tail = rest.take 4 :=
  ⟨rfl,
   C6_pipeline_success_shape [demo_candidate] (fun l => l) (fun l => l)
     (fun _ => "Chosen for you.") _ _ rfl⟩

/-- C8: with no provider client available `LLMClient.generate` returns
the fixed fallback string; with a raising provider call it returns the
"AI response unavailable" string; neither raises, and the pipeline still
returns a success result carrying that string as `primary_explanation`. -/
theorem C8_llm_fallback (providerCall : Except String String) (e : String)
    (retrieve : List Candidate) (filterStage rankStage : List Candidate → List Candidate)
    (s : String) (h1 : retrieve ≠ []) (h2 : filterStage retrieve ≠ [])
    (h3 : rankStage (filterStage retrieve) ≠ []) :
    LLMClient.generate false providerCall = fallback_response ∧
    LLMClient.generate true (Except.error e) = "AI response unavailable: " ++ e.take 200 ∧
    ∃ tops, run_hybrid_pipeline retrieve filterStage rankStage (fun _ => s) =
      PipelineResult.success tops s := by
  refine ⟨rfl, rfl, ?_⟩
  rcases hrk : rankStage (filterStage retrieve) with _ | ⟨best, rest⟩
  · exact absurd hrk h3
  · refine ⟨({ best with explanation := some s } :: rest).take 5, ?_⟩
    simp [run_hybrid_pipeline, h1, h2, hrk]

/-- C8 witness: concrete unavailable-backend run still succeeds with the
fallback string as the explanation. -/
theorem C8_llm_fallback_witness :
    LLMClient.generate false (Except.ok "ignored") = fallback_response ∧
    ∃ tops, run_hybrid_pipeline [demo_candidate] (fun l => l) (fun l => l)
        (fun _ => fallback_response) = PipelineResult.success tops fallback_response :=
  ⟨(C8_llm_fallback (Except.ok "ignored") "boom" [demo_candidate] (fun l => l)
      (fun l => l) fallback_response (by decide) (by decide) (by decide)).1,
   (C8_llm_fallback (Except.ok "ignored") "boom" [demo_candidate] (fun l => l)
      (fun l => l) fallback_response (by decide) (by decide) (by decide)).2.2⟩

/-- C7: if the embedding model or the FAISS index failed to load,
`get_candidates` returns the empty list; every returned candidate
corresponds to an id with a metadata row; and on the normal path the
returned ids are exactly the searched non-negative ids that have a
metadata row, ids without one being silently skipped. -/
theorem C7_get_candidates_degrades (model index : Option Unit)
    (search : String → Nat → List ℚ × List Int)
    (store : Int → Option MetaRow) (dbOk : Bool) (query : String) (k : Nat) :
    (model = none ∨ index = none →
      get_candidates model index search store dbOk query k = []) ∧
    (∀ c ∈ get_candidates model index search store dbOk query k,
      ∃ idx row, store idx = some row ∧ c.recipe_id = some (toString idx)) ∧
    (model.isSome → index.isSome → dbOk = true →
      (get_candidates model index search store dbOk query k).map (fun c => c.recipe_id) =
        (((search query k).2.filter (fun i => 0 ≤ i)).filter
            (fun i => (store i).isSome)).map (fun i => some (toString i))) := by
  refine ⟨?_, ?_, ?_⟩
  · rintro (rfl | rfl)
    · simp [get_candidates]
    · simp [get_candidates]
  · intro c hc
    simp only [get_candidates] at hc
    split at hc
    · simp at hc
    · split at hc
      · simp at hc
      · split at hc
        · simp at hc
        · exact buildCandidates_mem store _ 0 _ c hc
  · intro hm hi hdb
    rcases Option.isSome_iff_exists.1 hm with ⟨um, rfl⟩
    rcases Option.isSome_iff_exists.1 hi with ⟨ui, rfl⟩
    subst hdb
    simp only [get_candidates]
    by_cases hf : ((search query k).2.filter (fun i => 0 ≤ i)).isEmpty
    · rw [List.isEmpty_iff] at hf
      simp [hf]
    · simp only [Option.isNone_none, Bool.or_self, Bool.not_true, if_neg, hf,
        Option.isNone_some, Bool.or_false, Bool.false_or, Bool.not_false, if_true]
      rw [if_neg (by simp [hf]), if_neg (by simp)]
      exact buildCandidates_ids store _ 0 _

/-- C7 witness: a dead index handle yields no candidates; with live
handles, the id whose metadata row is missing is skipped. -/
theorem C7_get_candidates_degrades_witness :
    get_candidates none (some ()) demo_search demo_store true "soup" 3 = [] ∧
    (get_candidates (some ()) (some ()) demo_search demo_store true "soup" 3).map
        (fun c => c.recipe_id) =
      (((demo_search "soup" 3).2.filter (fun i => 0 ≤ i)).filter
          (fun i => (demo_store i).isSome)).map (fun i => some (toString i)) :=
  ⟨(C7_get_candidates_degrades none (some ()) demo_search demo_store true "soup" 3).1
      (Or.inl rfl),
   (C7_get_candidates_degrades (some ()) (some ()) demo_search demo_store true
      "soup" 3).2.2 rfl rfl rfl⟩

end PlatePlanner
